import Mathlib

/-!
Verification of the chil_life_bot repository against its specification.

The development embeds, in Lean, the parts of the two Python sources that the
claims touch:

* `src/new_script.py` — the persistence shim (`save_user_data`,
  `load_user_data` over an SQLite `users` table), the journal / checklist
  session handlers (`new_entry`, `save_journal_entry`, `create_checklist`,
  `save_checklist_entry`), the text-generation wrapper (`generate_text`),
  and the callback-handler registration table from `main`.
* `src/chil_life_bot.py` — the mindfulness quiz (`start_test`,
  `ask_next_question`, `handle_answer`, `analyze_test_result`) and the
  unguarded `get_motivation` handler.

The Python standard-library `json` module is an external collaborator; it is
modelled here by an executable printer (`json_dumps`) and parser
(`json_loads`) over the `Json` fragment this program actually stores
(strings, arrays, objects), together with a proof that the pair round-trips.
-/

namespace ChilBot

/-- The JSON fragment the bot persists: strings, arrays and objects
(`json.dumps` is only ever applied to lists of string-valued dicts and to
dicts of such values in this code base). -/
inductive Json where
  | str (s : String)
  | arr (elems : List Json)
  | obj (fields : List (String × Json))

/-- Escaping of a single character inside a JSON string literal: the quote
and the backslash are escaped, everything else is emitted verbatim. -/
def escChar (c : Char) : List Char :=
  if c = '"' ∨ c = '\\' then ['\\', c] else [c]

/-- Serialise the body of a JSON string literal (without the quotes). -/
def dumpStringChars : List Char → List Char
  | [] => []
  | c :: cs => escChar c ++ dumpStringChars cs

mutual

/-- Serialise a `Json` value (model of `json.dumps`, compact separators). -/
def dumpJson : Json → List Char
  | .str s => '"' :: (dumpStringChars s.data ++ ['"'])
  | .arr xs => '[' :: (dumpElems xs ++ [']'])
  | .obj kvs => '\x7b' :: (dumpFields kvs ++ ['\x7d'])

/-- Serialise the contents of a JSON array (between the brackets). -/
def dumpElems : List Json → List Char
  | [] => []
  | j :: js => dumpJson j ++ dumpElemsRest js

/-- Serialise the tail of a JSON array: a comma before every element. -/
def dumpElemsRest : List Json → List Char
  | [] => []
  | j :: js => ',' :: (dumpJson j ++ dumpElemsRest js)

/-- Serialise the contents of a JSON object (between the braces). -/
def dumpFields : List (String × Json) → List Char
  | [] => []
  | kv :: kvs => dumpField kv ++ dumpFieldsRest kvs

/-- Serialise the tail of a JSON object: a comma before every field. -/
def dumpFieldsRest : List (String × Json) → List Char
  | [] => []
  | kv :: kvs => ',' :: (dumpField kv ++ dumpFieldsRest kvs)

/-- Serialise a single `key: value` field of a JSON object. -/
def dumpField : String × Json → List Char
  | (k, v) => '"' :: (dumpStringChars k.data ++ ('"' :: ':' :: dumpJson v))

end

/-- Parse the body of a JSON string literal up to the closing quote,
returning the decoded characters and the remaining input. -/
def parseStringBody : List Char → Option (List Char × List Char)
  | [] => none
  | c :: rest =>
    if c = '\\' then
      match rest with
      | [] => none
      | d :: rest' =>
        match parseStringBody rest' with
        | some (s, r) => some (d :: s, r)
        | none => none
    else if c = '"' then some ([], rest)
    else
      match parseStringBody rest with
      | some (s, r) => some (c :: s, r)
      | none => none

mutual

/-- Fueled parser for a `Json` value (model of `json.loads` on the stored
fragment; fails on anything that is not a valid serialised value). -/
def parseJson : Nat → List Char → Option (Json × List Char)
  | 0, _ => none
  | _ + 1, [] => none
  | fuel + 1, c :: rest =>
    if c = '"' then
      match parseStringBody rest with
      | some (s, r) => some (Json.str (String.mk s), r)
      | none => none
    else if c = '[' then
      match parseElems fuel rest with
      | some (js, r) => some (Json.arr js, r)
      | none => none
    else if c = '\x7b' then
      match parseFields fuel rest with
      | some (kvs, r) => some (Json.obj kvs, r)
      | none => none
    else none

/-- Parse the contents of a JSON array after the opening bracket. -/
def parseElems : Nat → List Char → Option (List Json × List Char)
  | 0, _ => none
  | _ + 1, [] => none
  | fuel + 1, c :: rest =>
    if c = ']' then some ([], rest)
    else
      match parseJson fuel (c :: rest) with
      | some (j, r) =>
        match parseElemsRest fuel r with
        | some (js, r') => some (j :: js, r')
        | none => none
      | none => none

/-- Parse the tail of a JSON array: a closing bracket or a comma and a
further element. -/
def parseElemsRest : Nat → List Char → Option (List Json × List Char)
  | 0, _ => none
  | _ + 1, [] => none
  | fuel + 1, c :: rest =>
    if c = ']' then some ([], rest)
    else if c = ',' then
      match parseJson fuel rest with
      | some (j, r) =>
        match parseElemsRest fuel r with
        | some (js, r') => some (j :: js, r')
        | none => none
      | none => none
    else none

/-- Parse one `key: value` field of a JSON object. -/
def parseOneField : Nat → List Char → Option ((String × Json) × List Char)
  | 0, _ => none
  | _ + 1, [] => none
  | fuel + 1, c :: rest =>
    if c = '"' then
      match parseStringBody rest with
      | some (k, r) =>
        match r with
        | [] => none
        | d :: r' =>
          if d = ':' then
            match parseJson fuel r' with
            | some (v, r'') => some ((String.mk k, v), r'')
            | none => none
          else none
      | none => none
    else none

/-- Parse the contents of a JSON object after the opening brace. -/
def parseFields : Nat → List Char → Option (List (String × Json) × List Char)
  | 0, _ => none
  | _ + 1, [] => none
  | fuel + 1, c :: rest =>
    if c = '\x7d' then some ([], rest)
    else
      match parseOneField fuel (c :: rest) with
      | some (kv, r) =>
        match parseFieldsRest fuel r with
        | some (kvs, r') => some (kv :: kvs, r')
        | none => none
      | none => none

/-- Parse the tail of a JSON object: a closing brace or a comma and a
further field. -/
def parseFieldsRest : Nat → List Char → Option (List (String × Json) × List Char)
  | 0, _ => none
  | _ + 1, [] => none
  | fuel + 1, c :: rest =>
    if c = '\x7d' then some ([], rest)
    else if c = ',' then
      match parseOneField fuel rest with
      | some (kv, r) =>
        match parseFieldsRest fuel r with
        | some (kvs, r') => some (kv :: kvs, r')
        | none => none
      | none => none
    else none

end

mutual

/-- Node-weight of a `Json` value, used as a fuel lower bound for the parser. -/
def jsize : Json → Nat
  | .str _ => 1
  | .arr xs => 2 + lsize xs
  | .obj kvs => 2 + fsize kvs

/-- Node-weight of a list of array elements. -/
def lsize : List Json → Nat
  | [] => 0
  | j :: js => 1 + jsize j + lsize js

/-- Node-weight of a list of object fields. -/
def fsize : List (String × Json) → Nat
  | [] => 0
  | kv :: kvs => 1 + jsize kv.2 + fsize kvs

end

/-- Model of `json.dumps` restricted to the stored fragment. -/
def json_dumps (j : Json) : String := String.mk (dumpJson j)

/-- Model of `json.loads`: parse the whole input as one JSON value; `none`
models the `json.JSONDecodeError` raised on invalid input. The fuel
`2 * length + 2` dominates the recursion depth of any parse. -/
def json_loads (s : String) : Option Json :=
  match parseJson (2 * s.length + 2) s.data with
  | some (j, []) => some j
  | _ => none

/-- Python-level exceptions raised by the embedded code paths. -/
inductive PyErr where
  | keyError (key : String)
  | typeError
  | jsonDecodeError
  | indexError
deriving DecidableEq

/-- The per-conversation dict `context.user_data` of `src/new_script.py`,
restricted to the keys this program reads or writes. A missing dict key is
represented by the field default: missing `awaiting_journal` /
`awaiting_checklist` keys read as falsy (`context.user_data.get(...)`),
missing `journal` / `checklists` keys default to `[]` (`dict.setdefault` /
`dict.get`), a missing `language` key reads as `None` (`dict.get`), and a
missing `self_assessment` key defaults to the empty dict. Journal entries
are Python dicts, kept here as `Json` values. -/
structure UserData where
  language : Option String := none
  journal : List Json := []
  self_assessment : Json := Json.obj []
  checklists : List String := []
  awaiting_journal : Bool := false
  awaiting_checklist : Bool := false

/-- A fresh `context.user_data`: the empty dict. -/
def initialUserData : UserData := {}

/-- One row of the SQLite `users` table as created by `create_db`
(new_script.py lines 58-76): the columns `language`, `journal` and
`self_assessment` are nullable TEXT (`none` models SQL NULL). The table
has no `checklists` column. -/
structure Row where
  language : Option String
  journal : Option String
  self_assessment : Option String

/-- The `users` table, keyed by the INTEGER PRIMARY KEY `user_id`. -/
def Store : Type := Int → Option Row

/-- A database with no rows. -/
def emptyStore : Store := fun _ => none

/-- `save_user_data` (new_script.py lines 78-93): `REPLACE INTO users`
writes `data.get('language')`, `json.dumps(data.get('journal', []))` and
`json.dumps(data.get('self_assessment', {}))`. No other part of `data` is
written; in particular the `checklists` list is not persisted anywhere. -/
def save_user_data (user_id : Int) (data : UserData) (st : Store) : Store :=
  fun u =>
    if u = user_id then
      some ⟨data.language, some (json_dumps (Json.arr data.journal)),
        some (json_dumps data.self_assessment)⟩
    else st u

/-- The dict returned by `load_user_data`: it carries exactly the keys
`language`, `journal` and `self_assessment` — there is no `checklists`
key in it. -/
structure LoadedData where
  language : Option String
  journal : Json
  self_assessment : Json

/-- `user_data.get("checklists", [])` as evaluated by `my_checklists`
(new_script.py line 609) on a dict produced by `load_user_data`: the dict
has no `checklists` key, so `.get` always returns the default `[]`. -/
def LoadedData.checklists (_ : LoadedData) : List String := []

/-- `load_user_data` (new_script.py lines 95-116). The `journal` column is
decoded by an unguarded `json.loads(row[1])`: on SQL NULL this is
`json.loads(None)`, a `TypeError`; on undecodable text it raises
`json.JSONDecodeError`. The `self_assessment` column is guarded by
`json.loads(row[2]) if row[2] else ...` where an SQL NULL or an empty
string is falsy and yields the empty dict. When no row exists the
defaults `'uk'`, `[]`, empty dict are returned. -/
def load_user_data (user_id : Int) (st : Store) : Except PyErr LoadedData :=
  match st user_id with
  | some row =>
    match row.journal with
    | none => .error .typeError
    | some jtext =>
      match json_loads jtext with
      | none => .error .jsonDecodeError
      | some jval =>
        match row.self_assessment with
        | none => .ok ⟨row.language, jval, Json.obj []⟩
        | some stext =>
          if stext = "" then .ok ⟨row.language, jval, Json.obj []⟩
          else
            match json_loads stext with
            | none => .error .jsonDecodeError
            | some sval => .ok ⟨row.language, jval, sval⟩
  | none => .ok ⟨some "uk", Json.arr [], Json.obj []⟩

/-- A wall-clock instant as obtained from `datetime.now()` (an external
input of the journal-recording step). -/
structure DateTime where
  year : Nat
  month : Nat
  day : Nat
  hour : Nat
  minute : Nat
  second : Nat

/-- Zero-padded two-digit decimal field, as `strftime` renders `%m`, `%d`,
`%H`, `%M`, `%S`. -/
def pad2 (n : Nat) : String :=
  if n < 10 then "0" ++ toString n else toString n

/-- Four-digit zero-padded `%Y` field (for the common-era years this bot
can observe). -/
def pad4 (n : Nat) : String :=
  if n < 10 then "000" ++ toString n
  else if n < 100 then "00" ++ toString n
  else if n < 1000 then "0" ++ toString n
  else toString n

/-- `datetime.strftime`: CPython delegates to the platform C library;
glibc copies an unrecognised directive (for example `%` followed by the
CYRILLIC SMALL LETTER EM) through to the output verbatim. Only the
directives appearing in this program's format strings are interpreted. -/
def strftime : List Char → DateTime → String
  | [], _ => ""
  | '%' :: c :: rest, dt =>
    (if c = 'Y' then pad4 dt.year
     else if c = 'm' then pad2 dt.month
     else if c = 'd' then pad2 dt.day
     else if c = 'H' then pad2 dt.hour
     else if c = 'M' then pad2 dt.minute
     else if c = 'S' then pad2 dt.second
     else String.mk ['%', c]) ++ strftime rest dt
  | c :: rest, dt => String.mk [c] ++ strftime rest dt

/-- The timestamp format of the first `save_journal_entry` definition
(new_script.py line 359): ASCII `%Y-%m-%d %H:%M:%S`. -/
def timestampFormatFirst : String := "%Y-%m-%d %H:%M:%S"

/-- The timestamp format of the second, overriding `save_journal_entry`
definition (new_script.py line 487): the `m` of `%m` and the `M` of `%M`
are the CYRILLIC letters м and М, which `strftime` does not recognise. -/
def timestampFormatLast : String := "%Y-%м-%d %H:%М:%S"

/-- Does a string have the shape `YYYY-MM-DD HH:MM:SS` (four digits, dash,
two digits, dash, two digits, space, two digits, colon, two digits, colon,
two digits)? -/
def matchesTimestampShape (s : String) : Bool :=
  match s.data with
  | [y1, y2, y3, y4, '-', m1, m2, '-', d1, d2, ' ', h1, h2, ':', n1, n2, ':', s1, s2] =>
    y1.isDigit && y2.isDigit && y3.isDigit && y4.isDigit && m1.isDigit && m2.isDigit &&
      d1.isDigit && d2.isDigit && h1.isDigit && h2.isDigit && n1.isDigit && n2.isDigit &&
      s1.isDigit && s2.isDigit
  | _ => false

/-- The journal entry dict `{"timestamp": now.strftime("%Y-%м-%d %H:%М:%S"),
"entry": text}` appended by the overriding `save_journal_entry`
(new_script.py lines 486-488; per the spec's design note, the last of the
two duplicate definitions wins). -/
def journalEntry (now : DateTime) (text : String) : Json :=
  Json.obj [("timestamp", Json.str (strftime timestampFormatLast.data now)),
    ("entry", Json.str text)]

/-- `new_entry` (new_script.py lines 460-473): prompts the user and sets
`context.user_data["awaiting_journal"] = True`. -/
def new_entry (d : UserData) : UserData :=
  { d with awaiting_journal := true }

/-- `create_checklist` (new_script.py lines 585-596): prompts the user and
sets `context.user_data["awaiting_checklist"] = True`. -/
def create_checklist (d : UserData) : UserData :=
  { d with awaiting_checklist := true }

/-- `save_journal_entry` (new_script.py lines 475-492, the overriding
definition): fired for an incoming text message. If `awaiting_journal` is
truthy it appends the timestamped entry to the journal list, clears the
flag, persists via `save_user_data`, and replies with a confirmation;
otherwise it does nothing. The returned `Bool` records whether the
confirmation reply was sent. -/
def save_journal_entry (user_id : Int) (now : DateTime) (text : String)
    (d : UserData) (st : Store) : UserData × Store × Bool :=
  if d.awaiting_journal then
    let d' : UserData :=
      { d with awaiting_journal := false, journal := d.journal ++ [journalEntry now text] }
    (d', save_user_data user_id d' st, true)
  else (d, st, false)

/-- `save_checklist_entry` (new_script.py lines 617-633): the analogous
handler for `awaiting_checklist`. -/
def save_checklist_entry (user_id : Int) (text : String)
    (d : UserData) (st : Store) : UserData × Store × Bool :=
  if d.awaiting_checklist then
    let d' : UserData :=
      { d with awaiting_checklist := false, checklists := d.checklists ++ [text] }
    (d', save_user_data user_id d' st, true)
  else (d, st, false)

/-- Dispatch of one incoming free-text message through the handler table of
`main` (new_script.py lines 1390 and 1394): python-telegram-bot gives an
update to the first handler of group 0 whose check passes. Both
`MessageHandler`s carry the same `filters.TEXT & ~filters.COMMAND` filter
and `save_journal_entry` is registered first, so it consumes every text
message; `save_checklist_entry` is never invoked. -/
def handleFreeText (user_id : Int) (now : DateTime) (text : String)
    (d : UserData) (st : Store) : UserData × Store × Bool :=
  save_journal_entry user_id now text d st

/-- The inbound session events the claims exercise. -/
inductive Event where
  | pressNewEntry
  | pressCreateChecklist
  | freeText (now : DateTime) (text : String)

/-- One session event against the per-user state (dict and database). -/
def stepEvent (user_id : Int) : Event → UserData × Store → UserData × Store
  | .pressNewEntry, (d, st) => (new_entry d, st)
  | .pressCreateChecklist, (d, st) => (create_checklist d, st)
  | .freeText now text, (d, st) =>
    let r := handleFreeText user_id now text d st
    (r.1, r.2.1)

/-- Run a sequence of session events. -/
def runEvents (user_id : Int) (es : List Event) (s : UserData × Store) :
    UserData × Store :=
  es.foldl (fun acc e => stepEvent user_id e acc) s

/-- The `CallbackQueryHandler` patterns registered by `main`
(new_script.py lines 1366-1422), in registration order. -/
def callbackPatterns : List String := [
  "set_language_uk", "set_language_ru", "set_language_en", "mindfulness_path",
  "self_assessment", "my_results", "mindfulness_tips", "meditation",
  "short_sessions", "meditate_5", "meditate_10", "meditate_20",
  "atmosphere_meditations", "rain_sounds", "forest_sounds", "ocean_sounds",
  "personalized_sessions", "get_motivation", "motivational_quotes",
  "inspiring_music", "inspiring_videos", "start_journal", "new_entry",
  "view_entries", "productivity_checklist", "create_checklist", "my_checklists",
  "mini_games", "game_find_differences", "game_attention", "game_quiz",
  "rituals", "morning_rituals", "morning_exercises", "morning_meditation",
  "breakfast", "evening_rituals", "evening_reflection", "evening_reading",
  "evening_meditation", "share_mood", "improve_mood", "personal_profile",
  "meditation_progress", "achievements_levels", "profile_settings",
  "daily_challenges", "mindful_breathing", "meditation_exercises",
  "productivity_tasks", "community", "share_success", "inspiring_stories",
  "comments_reviews", "update_channel"]

/-- `CallbackQueryHandler(h, pattern=p)` accepts a callback query whose
data satisfies `re.match(p, data)`; every pattern in this table is a
regex-free literal, so the check is "`p` is a prefix of the token". The
dispatcher uses the first matching handler in registration order; `none`
means no registered handler accepts the token. -/
def resolveCallback (token : String) : Option String :=
  callbackPatterns.find? (fun p => p.isPrefixOf token)

/-- One `ButtonPress` through python-telegram-bot's dispatcher: an update
that no registered handler accepts is dropped — no handler body runs, no
reply is sent and no state is touched (and the event is not fatal). When a
handler matches, its body runs; the bodies are abstracted by the `apply`
parameter and the outbound reply is tagged with the matched pattern. -/
def dispatchButtonPress (apply : String → UserData × Store → UserData × Store)
    (token : String) (s : UserData × Store) :
    Option String × (UserData × Store) :=
  match resolveCallback token with
  | none => (none, s)
  | some p => (some p, apply p s)

/-- The fixed string `generate_text` substitutes when the generation
collaborator raises (new_script.py line 56). -/
def generationFailureFallback : String := "Ошибка при генерации текста."

/-- `generate_text` (new_script.py lines 37-56): calls the fallible
text-generation collaborator inside try/except and substitutes the fixed
fallback string on any exception, never re-raising. -/
def generate_text (gen : String → Except String String) (prompt : String) :
    String :=
  match gen prompt with
  | .ok t => t
  | .error _ => generationFailureFallback

/-- The reply of `motivational_quotes` (new_script.py lines 429-440). -/
def motivational_quotes_reply (gen : String → Except String String) : String :=
  "Мотивирующая цитата: " ++ generate_text gen "Generate a motivational quote."

/-- The reply of `game_quiz` (new_script.py lines 1210-1222). -/
def game_quiz_reply (gen : String → Except String String) : String :=
  "Вопрос викторины: " ++ generate_text gen "Generate a quiz question."

/-- The reply of `morning_meditation` (new_script.py lines 972-984). -/
def morning_meditation_reply (gen : String → Except String String) : String :=
  "Утренняя медитация: " ++ generate_text gen "Guide me through a morning meditation."

/-- `get_motivation` of the other program (chil_life_bot.py lines 135-137):
it calls the generation pipeline with NO try/except, so a generation error
propagates out of the handler instead of being replaced by a fallback. -/
def chil_get_motivation (gen : String → Except String String) :
    Except String String :=
  match gen "Motivational quote: " with
  | .ok t => .ok ("✨ " ++ t)
  | .error e => .error e

/-- The 30 quiz questions of the mindfulness test (chil_life_bot.py lines 37-68). -/
def questions : List String := [
  "Как часто ты фокусируешься на настоящем моменте?",
  "Ты осознаешь свои эмоции в течение дня?",
  "Легко ли тебе переключаться с негативных мыслей?",
  "Часто ли ты испытываешь стресс или тревогу?",
  "Ты ощущаешь благодарность за маленькие вещи в жизни?",
  "Как часто ты уделяешь внимание своему дыханию?",
  "Ты чувствуешь связь с людьми вокруг тебя?",
  "Ты находишь время для саморазмышлений?",
  "Ты легко прощаешь себя за ошибки?",
  "Ты регулярно устраиваешь перерывы для отдыха?",
  "Как часто ты находишься в моменте, а не думаешь о прошлом или будущем?",
  "Ты осознаешь свои физические ощущения в теле?",
  "Как часто ты ощущаешь радость от простых вещей?",
  "Ты чувствуешь ли спокойствие, даже когда на работе или в жизни много дел?",
  "Ты часто чувствуешь, что время проходит слишком быстро?",
  "Ты замечаешь, когда твой ум начинает блуждать?",
  "Ты умеешь расслабляться, не думая о внешних раздражителях?",
  "Ты осознаешь свои мысли, когда они начинают быть негативными?",
  "Как часто ты оцениваешь свое эмоциональное состояние?",
  "Ты можешь спокойно сидеть в тишине и ни о чем не думать?",
  "Ты осознаешь, когда твои действия или слова не соответствуют твоим ценностям?",
  "Ты чувствуешь благодарность за то, что у тебя есть?",
  "Ты часто заботишься о своем эмоциональном состоянии?",
  "Ты умеешь оставаться спокойным в трудных ситуациях?",
  "Ты чувствуешь связь с природой?",
  "Ты понимаешь, что твои эмоции и мысли — это не ты?",
  "Ты стараешься не реагировать на ситуации автоматическими привычками?",
  "Ты знаешь, как помочь себе справиться с сильными эмоциями?",
  "Ты часто размышляешь о смысле жизни?",
  "Ты замечаешь, когда твои эмоции начинают захлестывать тебя?"]

/-- The three answer options per question (chil_life_bot.py lines 71-102);
option `i` is wired to callback token `answer_i`. -/
def answers : List (List String) := [
  ["Каждый день 🌟", "Иногда ⏳", "Редко 🕰️"],
  ["Да, всегда ✨", "Иногда 🤔", "Редко 😔"],
  ["Да, легко 💪", "Иногда 🙃", "Трудно 😢"],
  ["Часто 😰", "Иногда 😟", "Редко 😌"],
  ["Каждый день 💖", "Иногда 💬", "Редко 🌚"],
  ["Часто 🧘‍♂️", "Иногда 🧠", "Редко ⏳"],
  ["Да, чувствую связь 🤝", "Иногда 🌍", "Нет, редко 😔"],
  ["Каждый день 🧠", "Иногда 💬", "Редко 🌿"],
  ["Да, всегда ✨", "Иногда 🕰️", "Редко 🛋️"],
  ["Каждый день 😌", "Иногда 🕰️", "Редко 🛑"],
  ["Часто ⏳", "Иногда 🤔", "Редко 🕰️"],
  ["Да, всегда 🧘‍♂️", "Иногда 🤔", "Редко ⏳"],
  ["Каждый день ✨", "Иногда 🌟", "Редко 😶"],
  ["Да, я часто 😊", "Иногда 💬", "Редко 🌟"],
  ["Да, всегда 🕊️", "Иногда 🤯", "Редко 🧘‍♂️"],
  ["Да, часто ⏳", "Иногда 🧠", "Редко 😞"],
  ["Часто 🧘‍♂️", "Иногда ⏳", "Редко 🕰️"],
  ["Да, всегда ✨", "Иногда 🤔", "Редко 😔"],
  ["Часто 🧘‍♂️", "Иногда 🧠", "Редко 😔"],
  ["Да, всегда 🌟", "Иногда 💬", "Редко ⏳"],
  ["Каждый день 💖", "Иногда ⏳", "Редко 🕰️"],
  ["Да, всегда ✨", "Иногда 🕊️", "Редко 😴"],
  ["Часто 🧘‍♂️", "Иногда 🕰️", "Редко 🛑"],
  ["Да, всегда 💪", "Иногда 😌", "Редко 🧘‍♂️"],
  ["Часто 🌿", "Иногда ⏳", "Редко 🧘‍♂️"],
  ["Да, всегда 🌟", "Иногда 🤔", "Редко 🕰️"],
  ["Да, всегда 🧘‍♂️", "Иногда 🌱", "Редко 🧠"],
  ["Часто 🧘‍♂️", "Иногда 😌", "Редко ⏳"],
  ["Да, всегда ✨", "Иногда 🤯", "Редко 🧘‍♂️"],
  ["Часто 💪", "Иногда 🧠", "Редко ⏳"]]

/-- The quiz part of `context.user_data` in chil_life_bot.py: the two
counter keys, absent (`none`) until `start_test` writes them. -/
structure QuizData where
  test_score : Option Int := none
  test_question : Option Nat := none

/-- What a quiz step sends back to the user. -/
inductive QuizOutput where
  | asked (question : String) (options : List String)
  | finished (score : Int) (verdict : String)

/-- `analyze_test_result` (chil_life_bot.py lines 120-126). -/
def analyze_test_result (score : Int) : String :=
  if 30 ≤ score then "🌟 Высокий уровень осознанности! Продолжай в том же духе!"
  else if 20 ≤ score ∧ score < 30 then
    "💪 Средний уровень осознанности. Есть куда стремиться!"
  else "❤️ Низкий уровень осознанности. Попробуй уделить больше времени медитациям."

/-- `ask_next_question` (chil_life_bot.py lines 106-118): reads
`user_data['test_question']` (KeyError when absent); below the question
count it sends question and options and increments the counter, otherwise
it reads `user_data['test_score']` (KeyError when absent) and reports the
final score with its classification. -/
def ask_next_question (d : QuizData) : Except PyErr (QuizData × QuizOutput) :=
  match d.test_question with
  | none => .error (.keyError "test_question")
  | some qi =>
    if h : qi < questions.length then
      match answers[qi]? with
      | some opts =>
        .ok ({ d with test_question := some (qi + 1) },
          .asked (questions.get ⟨qi, h⟩) opts)
      | none => .error .indexError
    else
      match d.test_score with
      | none => .error (.keyError "test_score")
      | some sc => .ok (d, .finished sc (analyze_test_result sc))

/-- `start_test` (chil_life_bot.py lines 31-34): zeroes both counters and
asks the first question. -/
def start_test (d : QuizData) : Except PyErr (QuizData × QuizOutput) :=
  ask_next_question { d with test_score := some 0, test_question := some 0 }

/-- `handle_answer` (chil_life_bot.py lines 128-132) on callback token
`answer_k`: `user_data['test_score'] += k + 1` (KeyError when the key is
absent), then ask the next question. -/
def handle_answer (k : Nat) (d : QuizData) : Except PyErr (QuizData × QuizOutput) :=
  match d.test_score with
  | none => .error (.keyError "test_score")
  | some sc => ask_next_question { d with test_score := some (sc + (k + 1)) }

/-- Feed a list of answer indices to `handle_answer`, keeping the state and
the output of the most recent step. -/
def run_answers (ks : List Nat) (d : QuizData) (out : QuizOutput) :
    Except PyErr (QuizData × QuizOutput) :=
  match ks with
  | [] => .ok (d, out)
  | k :: rest =>
    match handle_answer k d with
    | .ok (d', out') => run_answers rest d' out'
    | .error e => .error e

/-- A full quiz run: `start_test` on a fresh `user_data`, then one
`answer_k` press per element of `ks`; the result is the output shown after
the last press. -/
def quiz_run (ks : List Nat) : Except PyErr QuizOutput :=
  match start_test {} with
  | .ok (d0, out0) => (run_answers ks d0 out0).map (fun r => r.2)
  | .error e => .error e

/-- The score contributed by a list of answers: option index plus one each. -/
def sumInc (ks : List Nat) : Int := (ks.map (fun k => (k : Int) + 1)).sum


theorem jsize_pos (j : Json) : 1 ≤ jsize j := by
  cases j <;> simp only [jsize] <;> omega

theorem parseStringBody_dump (cs rest : List Char) :
    parseStringBody (dumpStringChars cs ++ ('"' :: rest)) = some (cs, rest) := by
  induction cs with
  | nil =>
    show parseStringBody ('"' :: rest) = some ([], rest)
    unfold parseStringBody
    simp
  | cons c cs ih =>
    by_cases h : c = '"' ∨ c = '\\'
    · show parseStringBody (escChar c ++ dumpStringChars cs ++ ('"' :: rest)) = _
      rw [escChar, if_pos h]
      show parseStringBody ('\\' :: c :: (dumpStringChars cs ++ ('"' :: rest))) = _
      unfold parseStringBody
      simp [ih]
    · push_neg at h
      show parseStringBody (escChar c ++ dumpStringChars cs ++ ('"' :: rest)) = _
      rw [escChar, if_neg (by simp [h.1, h.2])]
      show parseStringBody (c :: (dumpStringChars cs ++ ('"' :: rest))) = _
      unfold parseStringBody
      simp [h.1, h.2, ih]

theorem dumpJson_head (j : Json) :
    ∃ c t, dumpJson j = c :: t ∧ c ≠ ']' ∧ c ≠ ',' ∧ c ≠ '\x7d' := by
  cases j with
  | str s =>
    exact ⟨'"', dumpStringChars s.data ++ ['"'], by simp [dumpJson], by decide, by decide,
      by decide⟩
  | arr xs =>
    exact ⟨'[', dumpElems xs ++ [']'], by simp [dumpJson], by decide, by decide, by decide⟩
  | obj kvs =>
    exact ⟨'\x7b', dumpFields kvs ++ ['\x7d'], by simp [dumpJson], by decide, by decide,
      by decide⟩

theorem parse_dump_all : ∀ fuel : Nat,
    (∀ j rest, jsize j ≤ fuel → parseJson fuel (dumpJson j ++ rest) = some (j, rest)) ∧
    (∀ js rest, lsize js < fuel →
      parseElems fuel (dumpElems js ++ (']' :: rest)) = some (js, rest)) ∧
    (∀ js rest, lsize js < fuel →
      parseElemsRest fuel (dumpElemsRest js ++ (']' :: rest)) = some (js, rest)) ∧
    (∀ kvs rest, fsize kvs < fuel →
      parseFields fuel (dumpFields kvs ++ ('\x7d' :: rest)) = some (kvs, rest)) ∧
    (∀ kvs rest, fsize kvs < fuel →
      parseFieldsRest fuel (dumpFieldsRest kvs ++ ('\x7d' :: rest)) = some (kvs, rest)) ∧
    (∀ k v rest, jsize v < fuel →
      parseOneField fuel (dumpField (k, v) ++ rest) = some ((k, v), rest)) := by
  intro fuel
  induction fuel with
  | zero =>
    refine ⟨fun j _ h => absurd h (by have := jsize_pos j; omega),
      fun _ _ h => absurd h (by omega), fun _ _ h => absurd h (by omega),
      fun _ _ h => absurd h (by omega), fun _ _ h => absurd h (by omega),
      fun _ _ _ h => absurd h (by omega)⟩
  | succ f ih =>
    obtain ⟨ihP, ihE, ihR, ihF, ihG, ihH⟩ := ih
    refine ⟨?_, ?_, ?_, ?_, ?_, ?_⟩
    · -- parseJson inverts dumpJson
      intro j rest hle
      cases j with
      | str s =>
        simp only [dumpJson, List.cons_append, List.append_assoc, List.singleton_append]
        unfold parseJson
        simp [parseStringBody_dump]
      | arr xs =>
        have hxs : lsize xs < f := by simp only [jsize] at hle; omega
        simp only [dumpJson, List.cons_append, List.append_assoc, List.singleton_append]
        unfold parseJson
        simp [ihE xs rest hxs]
      | obj kvs =>
        have hkvs : fsize kvs < f := by simp only [jsize] at hle; omega
        simp only [dumpJson, List.cons_append, List.append_assoc, List.singleton_append]
        unfold parseJson
        simp [ihF kvs rest hkvs]
    · -- parseElems inverts dumpElems
      intro js rest h
      cases js with
      | nil =>
        simp only [dumpElems, List.nil_append]
        unfold parseElems
        simp
      | cons j js' =>
        have hj : jsize j ≤ f := by
          simp only [lsize] at h; have := jsize_pos j; omega
        have hjs' : lsize js' < f := by
          simp only [lsize] at h; have := jsize_pos j; omega
        obtain ⟨c, t, hjc, hc1, hc2, hc3⟩ := dumpJson_head j
        have hfold : c :: (t ++ (dumpElemsRest js' ++ (']' :: rest)))
            = dumpJson j ++ (dumpElemsRest js' ++ (']' :: rest)) := by
          rw [hjc]; rfl
        simp only [dumpElems, List.append_assoc]
        rw [hjc, List.cons_append]
        unfold parseElems
        rw [if_neg hc1, hfold, ihP j _ hj]
        simp [ihR js' rest hjs']
    · -- parseElemsRest inverts dumpElemsRest
      intro js rest h
      cases js with
      | nil =>
        simp only [dumpElemsRest, List.nil_append]
        unfold parseElemsRest
        simp
      | cons j js' =>
        have hj : jsize j ≤ f := by
          simp only [lsize] at h; have := jsize_pos j; omega
        have hjs' : lsize js' < f := by
          simp only [lsize] at h; have := jsize_pos j; omega
        simp only [dumpElemsRest, List.cons_append, List.append_assoc]
        unfold parseElemsRest
        rw [if_neg (by decide), if_pos rfl, ihP j _ hj]
        simp [ihR js' rest hjs']
    · -- parseFields inverts dumpFields
      intro kvs rest h
      cases kvs with
      | nil =>
        simp only [dumpFields, List.nil_append]
        unfold parseFields
        simp
      | cons kv kvs' =>
        obtain ⟨k, v⟩ := kv
        have hv : jsize v < f := by simp only [fsize] at h; omega
        have hkvs' : fsize kvs' < f := by
          simp only [fsize] at h; have := jsize_pos v; omega
        have hH := ihH k v (dumpFieldsRest kvs' ++ ('\x7d' :: rest)) hv
        simp only [dumpField, List.cons_append, List.append_assoc] at hH
        simp only [dumpFields, dumpField, List.cons_append, List.append_assoc]
        unfold parseFields
        rw [if_neg (by decide), hH]
        simp [ihG kvs' rest hkvs']
    · -- parseFieldsRest inverts dumpFieldsRest
      intro kvs rest h
      cases kvs with
      | nil =>
        simp only [dumpFieldsRest, List.nil_append]
        unfold parseFieldsRest
        simp
      | cons kv kvs' =>
        obtain ⟨k, v⟩ := kv
        have hv : jsize v < f := by simp only [fsize] at h; omega
        have hkvs' : fsize kvs' < f := by
          simp only [fsize] at h; have := jsize_pos v; omega
        have hH := ihH k v (dumpFieldsRest kvs' ++ ('\x7d' :: rest)) hv
        simp only [dumpField, List.cons_append, List.append_assoc] at hH
        simp only [dumpFieldsRest, dumpField, List.cons_append, List.append_assoc]
        unfold parseFieldsRest
        rw [if_neg (by decide), if_pos rfl, hH]
        simp [ihG kvs' rest hkvs']
    · -- parseOneField inverts dumpField
      intro k v rest hv
      simp only [dumpField, List.cons_append, List.append_assoc]
      unfold parseOneField
      rw [if_pos rfl, parseStringBody_dump]
      simp [ihP v rest (by omega : jsize v ≤ f)]

theorem sizes_bound : ∀ n : Nat,
    (∀ j, jsize j ≤ n → jsize j ≤ 2 * (dumpJson j).length) ∧
    (∀ js, lsize js ≤ n → lsize js ≤ 2 * (dumpElems js).length + 2) ∧
    (∀ js, lsize js ≤ n → lsize js ≤ 2 * (dumpElemsRest js).length + 1) ∧
    (∀ kvs, fsize kvs ≤ n → fsize kvs ≤ 2 * (dumpFields kvs).length + 2) ∧
    (∀ kvs, fsize kvs ≤ n → fsize kvs ≤ 2 * (dumpFieldsRest kvs).length + 1) := by
  intro n
  induction n with
  | zero =>
    refine ⟨fun j h => absurd h (by have := jsize_pos j; omega), ?_, ?_, ?_, ?_⟩ <;>
      rintro (_ | ⟨x, xs⟩) h <;> simp only [lsize, fsize] at h ⊢ <;> omega
  | succ n ih =>
    obtain ⟨ihP, ihE, ihR, ihF, ihG⟩ := ih
    refine ⟨?_, ?_, ?_, ?_, ?_⟩
    · intro j hle
      cases j with
      | str s =>
        simp only [jsize, dumpJson, List.length_cons, List.length_append]
        omega
      | arr xs =>
        have h1 : lsize xs ≤ n := by simp only [jsize] at hle; omega
        have := ihE xs h1
        simp only [jsize, dumpJson, List.length_cons, List.length_append] at *
        omega
      | obj kvs =>
        have h1 : fsize kvs ≤ n := by simp only [jsize] at hle; omega
        have := ihF kvs h1
        simp only [jsize, dumpJson, List.length_cons, List.length_append] at *
        omega
    · rintro (_ | ⟨j, js'⟩) h
      · simp only [lsize]; omega
      · have h1 : jsize j ≤ n := by simp only [lsize] at h; omega
        have h2 : lsize js' ≤ n := by
          simp only [lsize] at h; have := jsize_pos j; omega
        have := ihP j h1
        have := ihR js' h2
        simp only [lsize, dumpElems, List.length_append] at *
        omega
    · rintro (_ | ⟨j, js'⟩) h
      · simp only [lsize]; omega
      · have h1 : jsize j ≤ n := by simp only [lsize] at h; omega
        have h2 : lsize js' ≤ n := by
          simp only [lsize] at h; have := jsize_pos j; omega
        have := ihP j h1
        have := ihR js' h2
        simp only [lsize, dumpElemsRest, List.length_cons, List.length_append] at *
        omega
    · rintro (_ | ⟨⟨k, v⟩, kvs'⟩) h
      · simp only [fsize]; omega
      · have h1 : jsize v ≤ n := by simp only [fsize] at h; omega
        have h2 : fsize kvs' ≤ n := by
          simp only [fsize] at h; have := jsize_pos v; omega
        have := ihP v h1
        have := ihG kvs' h2
        simp only [fsize, dumpFields, dumpField, List.length_cons, List.length_append] at *
        omega
    · rintro (_ | ⟨⟨k, v⟩, kvs'⟩) h
      · simp only [fsize]; omega
      · have h1 : jsize v ≤ n := by simp only [fsize] at h; omega
        have h2 : fsize kvs' ≤ n := by
          simp only [fsize] at h; have := jsize_pos v; omega
        have := ihP v h1
        have := ihG kvs' h2
        simp only [fsize, dumpFieldsRest, dumpField, List.length_cons,
          List.length_append] at *
        omega

/-- The `json.dumps` / `json.loads` pair inverts on every stored value. -/
theorem json_loads_dumps (j : Json) : json_loads (json_dumps j) = some j := by
  have hb : jsize j ≤ 2 * (String.mk (dumpJson j)).length + 2 := by
    have h := (sizes_bound (jsize j)).1 j le_rfl
    have hlen : (String.mk (dumpJson j)).length = (dumpJson j).length := rfl
    omega
  have h := (parse_dump_all (2 * (String.mk (dumpJson j)).length + 2)).1 j [] hb
  rw [List.append_nil] at h
  unfold json_loads json_dumps
  rw [show (String.mk (dumpJson j)).data = dumpJson j from rfl, h]

/-- `json_dumps` never produces the empty string (it always opens with a
quote, a bracket or a brace), so a stored column is never SQL-falsy. -/
theorem json_dumps_ne_empty (j : Json) : json_dumps j ≠ "" := by
  obtain ⟨c, t, hj, -, -, -⟩ := dumpJson_head j
  unfold json_dumps
  rw [hj]
  intro hcontra
  have : (String.mk (c :: t)).data = ("" : String).data := by rw [hcontra]
  simp at this


theorem questions_length : questions.length = 30 := rfl

theorem answers_length : answers.length = 30 := rfl

theorem run_answers_spec : ∀ (ks : List Nat) (sc : Int) (qi : Nat) (out : QuizOutput),
    qi + ks.length = 31 → qi ≤ 30 →
    run_answers ks ⟨some sc, some qi⟩ out
      = .ok (⟨some (sc + sumInc ks), some 30⟩,
          QuizOutput.finished (sc + sumInc ks) (analyze_test_result (sc + sumInc ks))) := by
  intro ks
  induction ks with
  | nil => intro sc qi out h1 h2; simp at h1; omega
  | cons k rest ih =>
    intro sc qi out h1 h2
    simp only [List.length_cons] at h1
    have hsum : sumInc (k :: rest) = ((k : Int) + 1) + sumInc rest := by
      simp [sumInc]
    by_cases hq : qi < 30
    · have hqq : qi < questions.length := by rw [questions_length]; omega
      have hqa : qi < answers.length := by rw [answers_length]; omega
      rcases hEq : answers[qi]? with _ | opts
      · rw [List.getElem?_eq_none_iff] at hEq; omega
      · have hstep : handle_answer k ⟨some sc, some qi⟩
            = .ok (⟨some (sc + ((k : Int) + 1)), some (qi + 1)⟩,
                QuizOutput.asked (questions.get ⟨qi, hqq⟩) opts) := by
          unfold handle_answer ask_next_question
          simp [hqq, hEq]
        have hra : run_answers (k :: rest) ⟨some sc, some qi⟩ out
            = run_answers rest ⟨some (sc + ((k : Int) + 1)), some (qi + 1)⟩
                (QuizOutput.asked (questions.get ⟨qi, hqq⟩) opts) := by
          have e1 : run_answers (k :: rest) ⟨some sc, some qi⟩ out
              = match handle_answer k ⟨some sc, some qi⟩ with
                | .ok (d', out') => run_answers rest d' out'
                | .error e => .error e := rfl
          rw [e1, hstep]
        rw [hra, ih (sc + ((k : Int) + 1)) (qi + 1) _ (by omega) (by omega), hsum]
        have harith : sc + ((k : Int) + 1) + sumInc rest
            = sc + (((k : Int) + 1) + sumInc rest) := by ring
        rw [harith]
    · have hq30 : qi = 30 := by omega
      have hrest : rest = [] := by
        have : rest.length = 0 := by omega
        exact List.length_eq_zero.mp this
      subst hq30; subst hrest
      have hqq : ¬ (30 < questions.length) := by rw [questions_length]; omega
      have hstep : handle_answer k ⟨some sc, some 30⟩
          = .ok (⟨some (sc + ((k : Int) + 1)), some 30⟩,
              QuizOutput.finished (sc + ((k : Int) + 1))
                (analyze_test_result (sc + ((k : Int) + 1)))) := by
        unfold handle_answer ask_next_question
        simp [hqq]
      have hra : run_answers [k] ⟨some sc, some 30⟩ out
          = .ok (⟨some (sc + ((k : Int) + 1)), some 30⟩,
              QuizOutput.finished (sc + ((k : Int) + 1))
                (analyze_test_result (sc + ((k : Int) + 1)))) := by
        have e1 : run_answers [k] ⟨some sc, some 30⟩ out
            = match handle_answer k ⟨some sc, some 30⟩ with
              | .ok (d', out') => run_answers [] d' out'
              | .error e => .error e := rfl
        rw [e1, hstep]
        rfl
      have hsum1 : sumInc [k] = (k : Int) + 1 := by simp [sumInc]
      rw [hra, hsum1]

/-- C1: for every full quiz run (`start_test` then one `answer_k` press per
question, 30 in all), the final report shows exactly the sum over the
answered questions of (selected option's zero-based index + 1), each press
of `answer_k` contributing `k + 1`. -/
theorem quiz_final_score (ks : List Nat) (h : ks.length = 30) :
    quiz_run ks
      = .ok (QuizOutput.finished (sumInc ks) (analyze_test_result (sumInc ks))) := by
  unfold quiz_run
  have hstart : start_test {}
      = .ok (⟨some 0, some 1⟩,
          QuizOutput.asked "Как часто ты фокусируешься на настоящем моменте?"
            ["Каждый день 🌟", "Иногда ⏳", "Редко 🕰️"]) := rfl
  rw [hstart]
  show (run_answers ks ⟨some 0, some 1⟩
      (QuizOutput.asked "Как часто ты фокусируешься на настоящем моменте?"
        ["Каждый день 🌟", "Иногда ⏳", "Редко 🕰️"])).map (fun r => r.2) = _
  rw [run_answers_spec ks 0 1 _ (by omega) (by omega)]
  simp [Except.map]

/-- Witness for C1: the all-`answer_2` run scores 90, the all-`answer_0`
run scores 30. -/
theorem quiz_final_score_witness :
    (List.replicate 30 2).length = 30 ∧
    sumInc (List.replicate 30 2) = 90 ∧
    quiz_run (List.replicate 30 2)
      = .ok (QuizOutput.finished (sumInc (List.replicate 30 2))
          (analyze_test_result (sumInc (List.replicate 30 2)))) ∧
    (List.replicate 30 0).length = 30 ∧
    sumInc (List.replicate 30 0) = 30 ∧
    quiz_run (List.replicate 30 0)
      = .ok (QuizOutput.finished (sumInc (List.replicate 30 0))
          (analyze_test_result (sumInc (List.replicate 30 0)))) :=
  ⟨by decide, by decide, quiz_final_score (List.replicate 30 2) (by decide),
    by decide, by decide, quiz_final_score (List.replicate 30 0) (by decide)⟩

/-- C2: `analyze_test_result` returns the high-tier verdict exactly for
scores ≥ 30, the medium-tier verdict exactly for 20 ≤ score < 30, the
low-tier verdict exactly for score < 20; boundary points 30, 29, 20, 19
classify as high, medium, medium, low. -/
theorem analyze_test_result_tiers (score : Int) :
    (analyze_test_result score
        = "🌟 Высокий уровень осознанности! Продолжай в том же духе!" ↔ 30 ≤ score) ∧
    (analyze_test_result score
        = "💪 Средний уровень осознанности. Есть куда стремиться!"
      ↔ 20 ≤ score ∧ score < 30) ∧
    (analyze_test_result score
        = "❤️ Низкий уровень осознанности. Попробуй уделить больше времени медитациям."
      ↔ score < 20) ∧
    analyze_test_result 30
      = "🌟 Высокий уровень осознанности! Продолжай в том же духе!" ∧
    analyze_test_result 29
      = "💪 Средний уровень осознанности. Есть куда стремиться!" ∧
    analyze_test_result 20
      = "💪 Средний уровень осознанности. Есть куда стремиться!" ∧
    analyze_test_result 19
      = "❤️ Низкий уровень осознанности. Попробуй уделить больше времени медитациям." := by
  refine ⟨?_, ?_, ?_, by decide, by decide, by decide, by decide⟩ <;>
    (unfold analyze_test_result; split_ifs with h1 h2) <;> constructor <;> intro hx
  · exact h1
  · rfl
  · exact absurd hx (by decide)
  · exfalso; omega
  · exact absurd hx (by decide)
  · exfalso; omega
  · exact absurd hx (by decide)
  · exfalso; omega
  · exact h2
  · rfl
  · exact absurd hx (by decide)
  · exfalso; omega
  · exact absurd hx (by decide)
  · exfalso; omega
  · exact absurd hx (by decide)
  · exfalso; omega
  · omega
  · rfl


/-- Counterexample to C3 as stated: a `UserRecord` whose checklists list is
non-empty comes back from a save/load round trip with no checklists at all
(the `users` table has no `checklists` column and `save_user_data` never
writes that field). -/
theorem save_load_drops_checklists :
    (load_user_data 1 (save_user_data 1
          { checklists := ["Помити посуд"] } emptyStore)).map LoadedData.checklists
      = Except.ok [] ∧
    ({ checklists := ["Помити посуд"] } : UserData).checklists ≠ [] :=
  ⟨rfl, by decide⟩

/-- C3 (amended): a save/load round trip reproduces `language` and
`journal` (including entry order) bit-for-bit, but the loaded record
carries no checklists — the `users` table has no `checklists` column, so
reading checklists from a reloaded record always yields `[]`. -/
theorem save_load_round_trip (user_id : Int) (d : UserData) (st : Store) :
    load_user_data user_id (save_user_data user_id d st)
        = Except.ok ⟨d.language, Json.arr d.journal, d.self_assessment⟩ ∧
    (load_user_data user_id (save_user_data user_id d st)).map LoadedData.checklists
        = Except.ok [] := by
  have hj := json_loads_dumps (Json.arr d.journal)
  have hs := json_loads_dumps d.self_assessment
  have hne := json_dumps_ne_empty d.self_assessment
  have hmain : load_user_data user_id (save_user_data user_id d st)
      = Except.ok ⟨d.language, Json.arr d.journal, d.self_assessment⟩ := by
    unfold load_user_data save_user_data
    simp [hj, hs, hne]
  exact ⟨hmain, by rw [hmain]; rfl⟩

/-- Counterexample to C4 as stated: when the generation collaborator
fails, the reply substitutes the Russian fallback string, not the literal
"Error generating text"; and `get_motivation` of chil_life_bot.py has no
try/except at all, so there the error propagates instead of being
replaced. -/
theorem generation_fallback_counterexample :
    generate_text (fun _ => .error "model down") "Generate a motivational quote."
        ≠ "Error generating text" ∧
    generate_text (fun _ => .error "model down") "Generate a motivational quote."
        = "Ошибка при генерации текста." ∧
    chil_get_motivation (fun _ => .error "model down")
        = Except.error "model down" := by
  refine ⟨by decide, rfl, rfl⟩

/-- C4 (amended): when the text-generation collaborator errors, the
generative leaf actions of new_script.py (motivational quote, guided
meditation, quiz question) reply with the fixed fallback string
"Ошибка при генерации текста." and never propagate the exception, whereas
`get_motivation` of chil_life_bot.py calls the pipeline unguarded and
propagates the error. -/
theorem generation_failure_fallback_behaviour
    (gen : String → Except String String) (msg : String)
    (h : ∀ p, gen p = .error msg) :
    motivational_quotes_reply gen
        = "Мотивирующая цитата: " ++ generationFailureFallback ∧
    game_quiz_reply gen = "Вопрос викторины: " ++ generationFailureFallback ∧
    morning_meditation_reply gen
        = "Утренняя медитация: " ++ generationFailureFallback ∧
    chil_get_motivation gen = Except.error msg := by
  simp [motivational_quotes_reply, game_quiz_reply, morning_meditation_reply,
    generate_text, chil_get_motivation, h]

/-- Witness for C4 (amended) at an always-failing generator. -/
theorem generation_failure_fallback_witness :
    motivational_quotes_reply (fun _ => .error "down")
        = "Мотивирующая цитата: " ++ generationFailureFallback ∧
    game_quiz_reply (fun _ => .error "down")
        = "Вопрос викторины: " ++ generationFailureFallback ∧
    morning_meditation_reply (fun _ => .error "down")
        = "Утренняя медитация: " ++ generationFailureFallback ∧
    chil_get_motivation (fun _ => .error "down") = Except.error "down" :=
  generation_failure_fallback_behaviour (fun _ => .error "down") "down"
    (fun _ => rfl)

/-- C5: after one press of the new-entry button, the first free-text
message appends exactly one journal entry and clears the awaiting-journal
flag (and a confirmation is sent); a second consecutive free-text message
is a complete no-op, so exactly one entry results from the two events. -/
theorem journal_capture_exactly_once (user_id : Int) (d : UserData) (st : Store)
    (n1 n2 : DateTime) (t1 t2 : String) :
    (handleFreeText user_id n1 t1 (new_entry d) st).1.journal
        = d.journal ++ [journalEntry n1 t1] ∧
    (handleFreeText user_id n1 t1 (new_entry d) st).1.awaiting_journal = false ∧
    (handleFreeText user_id n1 t1 (new_entry d) st).2.2 = true ∧
    handleFreeText user_id n2 t2 (handleFreeText user_id n1 t1 (new_entry d) st).1
        (handleFreeText user_id n1 t1 (new_entry d) st).2.1
      = ((handleFreeText user_id n1 t1 (new_entry d) st).1,
        (handleFreeText user_id n1 t1 (new_entry d) st).2.1, false) ∧
    (handleFreeText user_id n2 t2 (handleFreeText user_id n1 t1 (new_entry d) st).1
        (handleFreeText user_id n1 t1 (new_entry d) st).2.1).1.journal.length
      = d.journal.length + 1 := by
  unfold handleFreeText save_journal_entry new_entry
  simp

/-- C6: the overriding `save_journal_entry` formats its timestamp with
"%Y-%м-%d %H:%М:%S" whose month/minute directives are Cyrillic homoglyphs;
`strftime` passes the unknown directives through, so the stored timestamp
does not have the claimed `YYYY-MM-DD HH:MM:SS` shape, while the format of
the earlier duplicate definition does. -/
theorem journal_timestamp_bug :
    strftime timestampFormatLast.data ⟨2026, 10, 12, 14, 30, 5⟩
        = "2026-%м-12 14:%М:05" ∧
    matchesTimestampShape
        (strftime timestampFormatLast.data ⟨2026, 10, 12, 14, 30, 5⟩) = false ∧
    journalEntry ⟨2026, 10, 12, 14, 30, 5⟩ "запись"
        = Json.obj [("timestamp", Json.str "2026-%м-12 14:%М:05"),
            ("entry", Json.str "запись")] ∧
    strftime timestampFormatFirst.data ⟨2026, 10, 12, 14, 30, 5⟩
        = "2026-10-12 14:30:05" ∧
    matchesTimestampShape
        (strftime timestampFormatFirst.data ⟨2026, 10, 12, 14, 30, 5⟩) = true := by
  refine ⟨by decide, by decide, rfl, by decide, by decide⟩

/-- Counterexample to C7 as stated: the token "zzz" resolves to no
registered handler, and the dispatcher sends no reply at all for it — in
particular it does not reply with any "not understood" message. -/
theorem unknown_callback_dropped :
    resolveCallback "zzz" = none ∧
    dispatchButtonPress (fun _ s => s) "zzz" (initialUserData, emptyStore)
        = (none, (initialUserData, emptyStore)) := by
  exact ⟨rfl, rfl⟩

/-- C7 (amended): a ButtonPress whose token no registered pattern matches
is dropped by the dispatcher: no reply is produced, no state is mutated,
and the event is not fatal. -/
theorem unknown_callback_no_reply_no_mutation
    (apply : String → UserData × Store → UserData × Store) (token : String)
    (s : UserData × Store) (h : resolveCallback token = none) :
    dispatchButtonPress apply token s = (none, s) := by
  unfold dispatchButtonPress
  rw [h]

/-- Witness for C7 (amended) at the unknown token "zzz". -/
theorem unknown_callback_no_reply_no_mutation_witness :
    resolveCallback "zzz" = none ∧
    dispatchButtonPress (fun _ s => s) "zzz" (initialUserData, emptyStore)
        = (none, (initialUserData, emptyStore)) :=
  ⟨rfl, unknown_callback_no_reply_no_mutation _ "zzz" (initialUserData, emptyStore) rfl⟩

/-- Counterexample to C8 as stated: pressing the new-entry button and then
the create-checklist button leaves BOTH awaiting flags set at once. -/
theorem awaiting_flags_both_set :
    ((runEvents 1 [Event.pressNewEntry, Event.pressCreateChecklist]
        (initialUserData, emptyStore)).1.awaiting_journal,
      (runEvents 1 [Event.pressNewEntry, Event.pressCreateChecklist]
        (initialUserData, emptyStore)).1.awaiting_checklist) = (true, true) := rfl

/-- C8 (amended): the awaiting-journal and awaiting-checklist flags are
not mutually exclusive — from every session state, `new_entry` followed by
`create_checklist` leaves both flags outstanding (neither handler clears
the other's flag), so "at most one outstanding tag" does not hold. -/
theorem awaiting_flags_not_exclusive (d : UserData) :
    (create_checklist (new_entry d)).awaiting_journal = true ∧
    (create_checklist (new_entry d)).awaiting_checklist = true :=
  ⟨rfl, rfl⟩

/-- C9: `load_user_data` is asymmetric on malformed rows — a NULL or empty
`self_assessment` column yields the empty mapping without error, while a
NULL `journal` column raises `TypeError` and an undecodable `journal`
column raises `JSONDecodeError`, whatever the `self_assessment` column
holds. -/
theorem load_user_data_malformed_asymmetry (uid : Int) (lang : Option String)
    (sa : Option String) (jgood jbad : String) (jval : Json)
    (hgood : json_loads jgood = some jval) (hsa : sa = none ∨ sa = some "")
    (hbad : json_loads jbad = none) :
    load_user_data uid (fun u => if u = uid then some ⟨lang, some jgood, sa⟩ else none)
        = Except.ok ⟨lang, jval, Json.obj []⟩ ∧
    (∀ sa2, load_user_data uid
        (fun u => if u = uid then some ⟨lang, none, sa2⟩ else none)
          = Except.error PyErr.typeError) ∧
    (∀ sa2, load_user_data uid
        (fun u => if u = uid then some ⟨lang, some jbad, sa2⟩ else none)
          = Except.error PyErr.jsonDecodeError) := by
  refine ⟨?_, ?_, ?_⟩
  · unfold load_user_data
    rcases hsa with h | h <;> subst h <;> simp [hgood]
  · intro sa2
    unfold load_user_data
    simp
  · intro sa2
    unfold load_user_data
    simp [hbad]

/-- Witness for C9 at a valid row with NULL self-assessment, a NULL
journal row, and a row whose journal column is not JSON. -/
theorem load_user_data_malformed_asymmetry_witness :
    load_user_data 7 (fun u => if u = 7 then some ⟨some "uk", some "[]", none⟩ else none)
        = Except.ok ⟨some "uk", Json.arr [], Json.obj []⟩ ∧
    load_user_data 7 (fun u => if u = 7 then some ⟨some "uk", none, none⟩ else none)
        = Except.error PyErr.typeError ∧
    load_user_data 7
        (fun u => if u = 7 then some ⟨some "uk", some "not json", none⟩ else none)
        = Except.error PyErr.jsonDecodeError := by
  obtain ⟨h1, h2, h3⟩ := load_user_data_malformed_asymmetry 7 (some "uk") none
    "[]" "not json" (Json.arr []) rfl (Or.inl rfl) rfl
  exact ⟨h1, h2 none, h3 none⟩

/-- C10: `handle_answer` on a fresh `user_data` (no quiz started) raises
`KeyError` on the missing `test_score` key; once the counters are
initialised (as `start_test` does), the increment and the question lookup
always succeed. -/
theorem handle_answer_key_requirement (k : Nat) (sc : Int) (qi : Nat) :
    handle_answer k {} = Except.error (PyErr.keyError "test_score") ∧
    (∃ out, handle_answer k ⟨some sc, some qi⟩ = Except.ok out) ∧
    (∃ out, start_test {} = Except.ok out) := by
  refine ⟨rfl, ?_, ⟨_, rfl⟩⟩
  unfold handle_answer ask_next_question
  by_cases h : qi < questions.length
  · have ha : qi < answers.length := by
      rw [answers_length]; rw [questions_length] at h; omega
    rcases hEq : answers[qi]? with _ | opts
    · rw [List.getElem?_eq_none_iff] at hEq; omega
    · exact ⟨(⟨some (sc + ((k : Int) + 1)), some (qi + 1)⟩,
        QuizOutput.asked (questions.get ⟨qi, h⟩) opts), by simp [h, hEq]⟩
  · exact ⟨(⟨some (sc + ((k : Int) + 1)), some qi⟩,
      QuizOutput.finished (sc + ((k : Int) + 1))
        (analyze_test_result (sc + ((k : Int) + 1)))), by simp [h]⟩

end ChilBot
